import Mathlib

/-!
Verification development for the yuzu audio-renderer core.

Shallow embedding of:
  - audio_core/stream.cpp (Stream queue/release state machine),
  - audio_core/audio_renderer.cpp (AudioRenderer::UpdateAudioRenderer,
    VoiceState, memory-pool update, mixing, ReleaseAndQueueBuffers),
  - audio_core/audio_renderer.h (wire structs and UpdateDataHeader).

Machine integers are modelled as Nat with explicit reduction modulo 2 ^ 32
or 2 ^ 64 exactly where the source performs u32 or u64 arithmetic that can
wrap. The float fields (volume, mix gains) are modelled as rationals; the
only claims about them involve values on which float arithmetic is exact.
-/

set_option maxRecDepth 10000

namespace AudioCore

/-! ## Output stream (audio_core/stream.cpp) -/

/-- A queued PCM buffer: tag plus interleaved samples (stream.cpp, Buffer). -/
structure Buffer where
  tag : Nat
  samples : List Int
deriving DecidableEq

/-- Stream state enum from stream.h (spec section 4.5: states Stopped and Playing). -/
inductive StreamPhase
  | Stopped
  | Playing
deriving DecidableEq

/-- MaxAudioBufferCount from stream.cpp. -/
def MaxAudioBufferCount : Nat := 32

/-- State of one Stream: the play/stop phase, the currently active buffer,
the queue of buffers awaiting playback (front first) and the queue of
released buffers (front first). Sink handoff and in-place volume scaling of
the active buffer are I/O effects that do not change this bookkeeping and
are not modelled. -/
structure StreamState where
  state : StreamPhase
  active_buffer : Option Buffer
  queued_buffers : List Buffer
  released_buffers : List Buffer
deriving DecidableEq

/-- Stream::IsPlaying: the stream is in the Playing state. -/
def StreamState.IsPlaying (s : StreamState) : Bool :=
  decide (s.state = StreamPhase.Playing)

/-- Stream::PlayNextBuffer (stream.cpp): do nothing if not playing, if a
buffer is already active, or if the queue is empty; otherwise move the head
of the queue to the active slot. -/
def StreamState.PlayNextBuffer (s : StreamState) : StreamState :=
  if s.IsPlaying = false then s
  else if s.active_buffer.isSome then s
  else
    match s.queued_buffers with
    | [] => s
    | b :: rest => { s with active_buffer := some b, queued_buffers := rest }

/-- Stream::QueueBuffer (stream.cpp): if fewer than MaxAudioBufferCount
buffers are queued, append the buffer, try to start playback and return
true; otherwise return false leaving the state (and the caller's buffer)
untouched. -/
def StreamState.QueueBuffer (s : StreamState) (b : Buffer) : Bool × StreamState :=
  if s.queued_buffers.length < MaxAudioBufferCount then
    (true, StreamState.PlayNextBuffer { s with queued_buffers := s.queued_buffers ++ [b] })
  else
    (false, s)

/-- Stream::ReleaseActiveBuffer (stream.cpp): move the active buffer to the
released queue and try to start the next one. The release callback itself
is an external effect. The source asserts active_buffer is set; the
assertion-failure case is modelled as leaving the state unchanged. -/
def StreamState.ReleaseActiveBuffer (s : StreamState) : StreamState :=
  match s.active_buffer with
  | none => s
  | some b =>
      StreamState.PlayNextBuffer
        { s with active_buffer := none, released_buffers := s.released_buffers ++ [b] }

/-- Stream::GetTagsAndReleaseBuffers (stream.cpp): pop up to max_count
buffers from the front of the released queue and return their tags in
order. -/
def StreamState.GetTagsAndReleaseBuffers (s : StreamState) (max_count : Nat) :
    List Nat × StreamState :=
  ((s.released_buffers.take max_count).map Buffer.tag,
    { s with released_buffers := s.released_buffers.drop max_count })

/-- A freshly opened stream: empty queues, no active buffer, and the
Stopped state. Modelled from the spec: stream.h is not among the sources;
spec section 4.5 lists the states Stopped and Playing with Play() being the
transition into Playing, so a stream starts Stopped. -/
def initialStream : StreamState :=
  { state := StreamPhase.Stopped, active_buffer := none,
    queued_buffers := [], released_buffers := [] }

/-- Sequentially queue a list of buffers, collecting each call's boolean
result in order together with the final stream state. -/
def queueSeq : StreamState → List Buffer → List Bool × StreamState
  | s, [] => ([], s)
  | s, b :: rest =>
      let r := s.QueueBuffer b
      let rr := queueSeq r.2 rest
      (r.1 :: rr.1, rr.2)

/-! ## Voice state (audio_renderer.h / audio_renderer.cpp) -/

/-- PlayState enum (audio_renderer.h). -/
inductive PlayState
  | Started
  | Stopped
  | Paused
deriving DecidableEq

/-- Sample format selector. The numeric codes live in codec.h which is not
among the sources; RefreshBuffer only distinguishes PCM16, ADPCM and the
unimplemented default branch. -/
inductive SampleFormat
  | Pcm16
  | Adpcm
  | Other
deriving DecidableEq

/-- WaveBuffer wire struct (audio_renderer.h). Only the fields the renderer
code reads are carried. -/
structure WaveBuffer where
  buffer_addr : Nat
  buffer_sz : Nat
  start_sample_offset : Int
  end_sample_offset : Int
  is_looping : Bool
  end_of_stream : Bool
deriving DecidableEq

/-- VoiceOutStatus wire struct (audio_renderer.h): played_sample_count is
u64, the two counters are u32. -/
structure VoiceOutStatus where
  played_sample_count : Nat
  wave_buffer_consumed : Nat
  voice_drops_count : Nat
deriving DecidableEq

/-- VoiceInfo wire struct (audio_renderer.h), restricted to the fields the
renderer code reads. The 4-entry wave-buffer ring is a total map on Fin 4. -/
structure VoiceInfo where
  id : Nat
  is_new : Bool
  is_in_use : Bool
  play_state : PlayState
  sample_format : SampleFormat
  sample_rate : Nat
  channel_count : Nat
  volume : ℚ
  wave_buffer_head : Nat
  additional_params_addr : Nat
  wave_buffer : Fin 4 → WaveBuffer

/-- STREAM_SAMPLE_RATE constant (audio_renderer.cpp). -/
def STREAM_SAMPLE_RATE : Nat := 48000

/-- STREAM_NUM_CHANNELS constant (audio_renderer.cpp). -/
def STREAM_NUM_CHANNELS : Nat := 2

/-- AudioRenderer::VoiceState private state (audio_renderer.cpp). The ADPCM
codec state and interpolation state are carried abstractly (their concrete
contents live in codec.h / interpolate.cpp, outside the sources, and no
claim depends on them). -/
structure VoiceState where
  is_in_use : Bool
  is_refresh_pending : Bool
  wave_index : Nat
  offset : Nat
  adpcm_state : Nat
  interp_fraction : Int
  samples : List Int
  out_status : VoiceOutStatus
  info : VoiceInfo

/-- VoiceState::IsPlaying (audio_renderer.cpp): in use and play state Started. -/
def VoiceState.IsPlaying (v : VoiceState) : Bool :=
  v.is_in_use && decide (v.info.play_state = PlayState.Started)

/-- VoiceState::SetWaveIndex (audio_renderer.cpp): store the index masked
with 3 and mark a refresh pending. -/
def VoiceState.SetWaveIndex (v : VoiceState) (index : Nat) : VoiceState :=
  { v with wave_index := index &&& 3, is_refresh_pending := true }

/-- The wave buffer currently selected by wave_index. The source indexes
the 4-entry std array directly; the reduction modulo 4 is the identity
under the wave_index invariant proved below. -/
def VoiceState.currentWaveBuffer (v : VoiceState) : WaveBuffer :=
  v.info.wave_buffer ⟨v.wave_index % 4, Nat.mod_lt _ (by decide)⟩

/-- External collaborators of the voice decoder: guest memory read as
16-bit samples at byte addresses, the ADPCM decoder (codec.cpp, not among
the sources) and the resampler (interpolate.cpp, not among the sources).
The theorems below hold for every choice of these functions, which
subsumes the real implementations. -/
structure DecodeEnv where
  mem : Nat → Int
  decodeAdpcm : Nat → List Int → List Int × Nat
  interp : Int → List Int → Nat → Nat → List Int × Int

/-- VoiceState::RefreshBuffer (audio_renderer.cpp): read the current wave
buffer payload from guest memory, decode per sample format (PCM16 passes
through; the unimplemented default branch logs and also leaves the raw
samples), duplicate mono to stereo (the unimplemented channel-count branch
leaves the previous cache), resample when the voice rate differs from the
output rate, and clear the pending-refresh flag. -/
def VoiceState.RefreshBuffer (env : DecodeEnv) (v : VoiceState) : VoiceState :=
  let wb := v.currentWaveBuffer
  let raw := (List.range (wb.buffer_sz / 2)).map (fun i => env.mem (wb.buffer_addr + 2 * i))
  let decoded :=
    match v.info.sample_format with
    | SampleFormat.Pcm16 => (raw, v.adpcm_state)
    | SampleFormat.Adpcm => env.decodeAdpcm v.adpcm_state raw
    | SampleFormat.Other => (raw, v.adpcm_state)
  let channeled :=
    match v.info.channel_count with
    | 1 => decoded.1.flatMap (fun s => [s, s])
    | 2 => decoded.1
    | _ => v.samples
  let resampled :=
    if v.info.sample_rate ≠ STREAM_SAMPLE_RATE then
      env.interp v.interp_fraction channeled v.info.sample_rate STREAM_SAMPLE_RATE
    else
      (channeled, v.interp_fraction)
  { v with samples := resampled.1, adpcm_state := decoded.2,
           interp_fraction := resampled.2, is_refresh_pending := false }

/-- Middle portion of VoiceState::DequeueSamples: account the played
samples (u64 counter) and advance the offset by the dequeued size. -/
def VoiceState.dequeueAdvance (v : VoiceState) (size : Nat) : VoiceState :=
  { v with
    out_status := { v.out_status with
      played_sample_count :=
        (v.out_status.played_sample_count + size / STREAM_NUM_CHANNELS) % 2 ^ 64 },
    offset := v.offset + size }

/-- End-of-cache portion of VoiceState::DequeueSamples, entered when the
advanced offset reaches the cache size: reset the offset, advance the wave
index (masked) for a consumed non-looping nonempty buffer, bump the
consumed counter (u32) for a nonempty buffer, and pause on end-of-stream or
an empty buffer. wb is the wave buffer reference bound before the index
advance, exactly as in the source. -/
def VoiceState.dequeueFinish (v : VoiceState) (wb : WaveBuffer) : VoiceState :=
  let va := { v with offset := 0 }
  let vb :=
    if wb.is_looping = false ∧ wb.buffer_sz ≠ 0 then
      va.SetWaveIndex (va.wave_index + 1)
    else va
  let vc :=
    if wb.buffer_sz ≠ 0 then
      { vb with out_status := { vb.out_status with
          wave_buffer_consumed := (vb.out_status.wave_buffer_consumed + 1) % 2 ^ 32 } }
    else vb
  if wb.end_of_stream = true ∨ wb.buffer_sz = 0 then
    { vc with info := { vc.info with play_state := PlayState.Paused } }
  else vc

/-- VoiceState::DequeueSamples (audio_renderer.cpp): return an empty slice
when not playing; refresh the cache when pending; slice up to
sample_count * 2 interleaved samples from the cache at the current offset;
run the end-of-cache transitions when the cache is exhausted. The source
computes max_size with size_t subtraction; offset never exceeds the cache
size (it is only zeroed or advanced by at most the remainder), so Nat
subtraction agrees. -/
def VoiceState.DequeueSamples (env : DecodeEnv) (v : VoiceState) (sample_count : Nat) :
    List Int × VoiceState :=
  if v.IsPlaying = false then ([], v)
  else
    let v1 := if v.is_refresh_pending then v.RefreshBuffer env else v
    let max_size := v1.samples.length - v1.offset
    let dequeue_offset := v1.offset
    let size := min (sample_count * STREAM_NUM_CHANNELS) max_size
    let v2 := v1.dequeueAdvance size
    let wb := v2.currentWaveBuffer
    let v3 := if v2.offset = v2.samples.length then v2.dequeueFinish wb else v2
    ((v2.samples.drop dequeue_offset).take size, v3)

/-- The size dequeued by DequeueSamples from a voice whose cache is current
(no refresh pending). -/
def VoiceState.dequeueSize (v : VoiceState) (sample_count : Nat) : Nat :=
  min (sample_count * STREAM_NUM_CHANNELS) (v.samples.length - v.offset)

/-- VoiceState::UpdateState (audio_renderer.cpp): when the voice was in use
and the freshly parsed info says it no longer is, reset the decode cursor,
wave index and output status and mark a refresh pending; always synchronize
the internal in-use flag with the parsed one. -/
def VoiceState.UpdateState (v : VoiceState) : VoiceState :=
  let v1 :=
    if v.is_in_use = true ∧ v.info.is_in_use = false then
      { v with is_refresh_pending := true, wave_index := 0, offset := 0,
               out_status :=
                 { played_sample_count := 0, wave_buffer_consumed := 0, voice_drops_count := 0 } }
    else v
  { v1 with is_in_use := v1.info.is_in_use }

/-- The per-voice step of AudioRenderer::UpdateAudioRenderer (the Update
voices loop): run UpdateState, then for an in-use voice flagged new, set
the wave index to the guest-declared head index. -/
def updateVoice (v : VoiceState) : VoiceState :=
  let v1 := v.UpdateState
  if v1.info.is_in_use = false then v1
  else if v1.info.is_new = true then v1.SetWaveIndex v1.info.wave_buffer_head
  else v1

/-! ## Memory pools (audio_renderer.h / UpdateAudioRenderer) -/

/-- MemoryPoolStates enum (audio_renderer.h). -/
inductive MemoryPoolStates
  | Invalid
  | Unknown
  | RequestDetach
  | Detached
  | RequestAttach
  | Attached
  | Released
deriving DecidableEq

/-- Initial state of a response MemoryPoolEntry: the response vector is
value-initialized each update, so every entry starts as state 0, Invalid. -/
def freshMemoryPoolEntryState : MemoryPoolStates := MemoryPoolStates.Invalid

/-- The per-slot body of the memory-pool update loop in
AudioRenderer::UpdateAudioRenderer: RequestAttach yields Attached,
RequestDetach yields Detached, and any other guest state leaves the entry
untouched. -/
def updateMemoryPoolEntry (req : MemoryPoolStates) (entry : MemoryPoolStates) :
    MemoryPoolStates :=
  if req = MemoryPoolStates.RequestAttach then MemoryPoolStates.Attached
  else if req = MemoryPoolStates.RequestDetach then MemoryPoolStates.Detached
  else entry

/-- The whole memory-pool update loop: one fresh (Invalid) entry per parsed
MemoryPoolInfo, each updated by updateMemoryPoolEntry. -/
def updateMemoryPool (infos : List MemoryPoolStates) : List MemoryPoolStates :=
  infos.map (fun req => updateMemoryPoolEntry req freshMemoryPoolEntryState)

/-! ## Response header (audio_renderer.h UpdateDataHeader) -/

/-- Reduction modulo 2 ^ 32, the u32 wire arithmetic. -/
def u32 (n : Nat) : Nat := n % 2 ^ 32

/-- AudioRendererParameter construction parameters (audio_renderer.h),
restricted to the fields the header formula reads. -/
structure AudioRendererParameter where
  sample_rate : Nat
  sample_count : Nat
  voice_count : Nat
  sink_count : Nat
  effect_count : Nat
  revision : Nat
deriving DecidableEq

/-- UpdateDataHeader wire struct (audio_renderer.h); all fields u32. -/
structure UpdateDataHeader where
  revision : Nat
  behavior_size : Nat
  memory_pools_size : Nat
  voices_size : Nat
  voice_resource_size : Nat
  effects_size : Nat
  mixes_size : Nat
  sinks_size : Nat
  performance_manager_size : Nat
  frame_count : Nat
  total_size : Nat
deriving DecidableEq

/-- Byte size of the UpdateDataHeader struct (static_assert value 0x40). -/
def updateDataHeaderBytes : Nat := 0x40

/-- The UpdateDataHeader constructor taking an AudioRendererParameter
(audio_renderer.h): fixed behavior and performance sizes, per-entity
section sizes from the configured counts, revision magic REV4, and
total_size as the sum of the header and the declared sections. -/
def UpdateDataHeader.fromConfig (c : AudioRendererParameter) : UpdateDataHeader :=
  let behavior_size := 0xb0
  let memory_pools_size := u32 ((c.effect_count + c.voice_count * 4) * 0x10)
  let voices_size := u32 (c.voice_count * 0x10)
  let effects_size := u32 (c.effect_count * 0x10)
  let sinks_size := u32 (c.sink_count * 0x20)
  let performance_manager_size := 0x10
  { revision := 0x34564552
    behavior_size := behavior_size
    memory_pools_size := memory_pools_size
    voices_size := voices_size
    voice_resource_size := 0
    effects_size := effects_size
    mixes_size := 0
    sinks_size := sinks_size
    performance_manager_size := performance_manager_size
    frame_count := 0
    total_size := u32 (updateDataHeaderBytes + behavior_size + memory_pools_size +
      voices_size + effects_size + sinks_size + performance_manager_size) }

/-- VersionFromRevision (audio_renderer.cpp): the top byte of the revision
tag minus 0x30 in u32 arithmetic. -/
def versionFromRevision (rev : Nat) : Nat :=
  u32 (rev / 2 ^ 24 % 256 + 2 ^ 32 - 0x30)

/-- The response-allocation portion of AudioRenderer::UpdateAudioRenderer:
the header is built from the construction parameters, the output blob is
allocated with the header's total_size, and only afterwards, for input
revisions of version 5 or above, frame_count is set to 0x10 and total_size
is bumped by 0x10. Returns the allocated blob size together with the header
that is then copied into the blob. -/
def updateAudioRendererResponse (params : AudioRendererParameter) (input_revision : Nat) :
    Nat × UpdateDataHeader :=
  let response := UpdateDataHeader.fromConfig params
  let output_size := response.total_size
  let response2 :=
    if 5 ≤ versionFromRevision input_revision then
      { response with frame_count := 0x10, total_size := u32 (response.total_size + 0x10) }
    else response
  (output_size, response2)

/-! ## Mixing (AudioRenderer::QueueMixedBuffer) -/

/-- ClampToS16 (audio_renderer.cpp): clamp to the 16-bit signed range. -/
def ClampToS16 (value : Int) : Int := max (-32768) (min 32767 value)

/-- Truncating cast of a rational to an integer, toward zero, modelling the
static_cast from float to s32 on the in-range values the mixer produces. -/
def castToS32 (q : ℚ) : Int := q.num.sign * ((q.num.natAbs / q.den : Nat) : Int)

/-- One accumulation step of the mixing loop (audio_renderer.cpp): the
existing frame-buffer sample plus the voice sample scaled by the voice
volume and the per-ear submix gain, saturated to the s16 range. -/
def mixSample (buffer_sample : Int) (sample : Int) (volume : ℚ) (submix : ℚ) : Int :=
  ClampToS16 (buffer_sample + castToS32 ((sample : ℚ) * volume * submix))

/-- The inner for loop over one dequeued slice: accumulate each sample into
the frame buffer at the running offset, choosing the submix gain by the
offset parity (index 0 left ear, 1 right ear). -/
def mixIntoBuffer (volume : ℚ) (mix0 mix1 : ℚ) :
    List Int → Nat → List Int → List Int
  | buffer, _, [] => buffer
  | buffer, offset, s :: rest =>
      let submix := if offset % 2 = 0 then mix0 else mix1
      mixIntoBuffer volume mix0 mix1
        (buffer.set offset (mixSample (buffer.getD offset 0) s volume submix))
        (offset + 1) rest

/-- BUFFER_SIZE constant of QueueMixedBuffer. -/
def BUFFER_SIZE : Nat := 512

/-- The while loop of QueueMixedBuffer for one voice: dequeue up to the
remaining sample count, stop on an empty slice, otherwise mix the slice in
and continue. The source loop is a while; the fuel argument bounds the
iteration count of the model (QueueMixedBuffer passes enough fuel for every
terminating run of the source loop). -/
def voiceMixLoop (env : DecodeEnv) (volume mix0 mix1 : ℚ) :
    Nat → VoiceState → List Int → Nat → Nat → VoiceState × List Int
  | 0, v, buffer, _, _ => (v, buffer)
  | fuel + 1, v, buffer, offset, remaining =>
      if remaining = 0 then (v, buffer)
      else
        let dq := VoiceState.DequeueSamples env v remaining
        if dq.1 = [] then (dq.2, buffer)
        else
          voiceMixLoop env volume mix0 mix1 fuel dq.2
            (mixIntoBuffer volume mix0 mix1 buffer offset dq.1)
            (offset + dq.1.length)
            (remaining - dq.1.length / STREAM_NUM_CHANNELS)

/-- The renderer state touched by mixing and buffer recycling: the voice
array, the per-channel mix-gain lookup (ChannelInfoIn mix vector, addressed
by voice id then gain index) and the output stream. -/
structure RendererState where
  voices : List VoiceState
  channels : Nat → Nat → ℚ
  stream : StreamState

/-- AudioRenderer::QueueMixedBuffer (audio_renderer.cpp): start from a
zeroed 512-sample stereo frame, mix every playing voice into it in array
order, and queue the frame on the output stream under the given tag. -/
def RendererState.QueueMixedBuffer (env : DecodeEnv) (rs : RendererState) (tag : Nat) :
    RendererState :=
  let init := List.replicate (BUFFER_SIZE * STREAM_NUM_CHANNELS) (0 : Int)
  let step := fun (acc : List VoiceState × List Int) (v : VoiceState) =>
    if v.IsPlaying = false then (acc.1 ++ [v], acc.2)
    else
      let mix := rs.channels v.info.id
      let res := voiceMixLoop env v.info.volume (mix 0) (mix 1)
        (BUFFER_SIZE + 1) v acc.2 0 BUFFER_SIZE
      (acc.1 ++ [res.1], res.2)
  let mixed := rs.voices.foldl step ([], init)
  let qb := rs.stream.QueueBuffer { tag := tag, samples := mixed.2 }
  { rs with voices := mixed.1, stream := qb.2 }

/-- Mix and queue one replacement frame per tag, in order. -/
def RendererState.mixAndQueueTags (env : DecodeEnv) (rs : RendererState) (tags : List Nat) :
    RendererState :=
  tags.foldl (fun r t => RendererState.QueueMixedBuffer env r t) rs

/-- AudioRenderer::ReleaseAndQueueBuffers (audio_renderer.cpp): drain at
most 2 tags from the released queue and queue one freshly mixed frame per
drained tag. -/
def RendererState.ReleaseAndQueueBuffers (env : DecodeEnv) (rs : RendererState) :
    RendererState :=
  let rel := rs.stream.GetTagsAndReleaseBuffers 2
  RendererState.mixAndQueueTags env { rs with stream := rel.2 } rel.1

/-! ## Concrete example values used by witnesses and counterexamples -/

/-- A decode environment with silent guest memory, an identity ADPCM
decoder and an identity resampler. -/
def exampleEnv : DecodeEnv :=
  { mem := fun _ => 0
    decodeAdpcm := fun st l => (l, st)
    interp := fun st l _ _ => (l, st) }

/-- A 4-byte, non-looping, non-end-of-stream wave buffer. -/
def exampleWaveBuffer : WaveBuffer :=
  { buffer_addr := 0, buffer_sz := 4, start_sample_offset := 0, end_sample_offset := 0,
    is_looping := false, end_of_stream := false }

/-- Parsed info of an in-use, started, PCM16 stereo voice at the output rate. -/
def exampleInfoPlaying : VoiceInfo :=
  { id := 0, is_new := false, is_in_use := true, play_state := PlayState.Started,
    sample_format := SampleFormat.Pcm16, sample_rate := 48000, channel_count := 2,
    volume := 1, wave_buffer_head := 0, additional_params_addr := 0,
    wave_buffer := fun _ => exampleWaveBuffer }

/-- A playing voice with a current two-sample cache and no pending refresh. -/
def exampleVoicePlaying : VoiceState :=
  { is_in_use := true, is_refresh_pending := false, wave_index := 0, offset := 0,
    adpcm_state := 0, interp_fraction := 0, samples := [1, 2],
    out_status := ⟨0, 0, 0⟩, info := exampleInfoPlaying }

/-- Parsed info of a voice that is in use but not flagged new, with a
nonzero declared wave-buffer head. -/
def exampleInfoInUseNotNew : VoiceInfo :=
  { exampleInfoPlaying with is_new := false, is_in_use := true, wave_buffer_head := 2 }

/-- A voice whose in-use flag is about to transition from false to true
while the freshly parsed info does not carry the new flag. -/
def exampleVoiceBecomingInUse : VoiceState :=
  { exampleVoicePlaying with is_in_use := false, info := exampleInfoInUseNotNew }

/-- Parsed info of a voice that is flagged new and in use. -/
def exampleInfoNew : VoiceInfo :=
  { exampleInfoPlaying with is_new := true, is_in_use := true, wave_buffer_head := 3 }

/-- A voice receiving an update flagged new. -/
def exampleVoiceNew : VoiceState :=
  { exampleVoicePlaying with info := exampleInfoNew }

/-- Parsed info of a voice that just went out of use. -/
def exampleInfoNotInUse : VoiceInfo :=
  { exampleInfoPlaying with is_in_use := false }

/-- A voice that was in use while its freshly parsed info says it is not:
UpdateState must reset it. Its cursors and counters are nonzero so the
reset is observable. -/
def exampleVoiceDeactivating : VoiceState :=
  { exampleVoicePlaying with
    is_in_use := true
    wave_index := 2
    offset := 5
    out_status := ⟨10, 3, 1⟩
    info := exampleInfoNotInUse }

/-- Renderer construction parameters of a minimal instance. -/
def exampleParams : AudioRendererParameter :=
  { sample_rate := 48000, sample_count := 4, voice_count := 0, sink_count := 0,
    effect_count := 0, revision := 0x34564552 }

/-- The u32 revision tag REV5, whose version is exactly the threshold 5. -/
def rev5Magic : Nat := 0x35564552

/-- The u32 revision tag REV4, below the version threshold. -/
def rev4Magic : Nat := 0x34564552

/-- An example buffer for queueing. -/
def exampleBuffer : Buffer := { tag := 0, samples := [] }

/-! ## Helper lemmas -/

/-- Masking with 3 is reduction modulo 4 (the SetWaveIndex mask). -/
theorem land_three_eq_mod (n : Nat) : n &&& 3 = n % 4 := by
  have h := Nat.and_pow_two_sub_one_eq_mod n 2
  norm_num at h
  exact h

/-- Every accumulated mixer sample lies in the signed 16-bit range. -/
theorem mixSample_bounds (b s : Int) (vol g : ℚ) :
    -32768 ≤ mixSample b s vol g ∧ mixSample b s vol g ≤ 32767 := by
  unfold mixSample ClampToS16
  exact ⟨le_max_left _ _, max_le (by norm_num) (min_le_left _ _)⟩

/-- The truncating float-to-s32 cast is the identity on integral values. -/
theorem castToS32_intCast (n : Int) : castToS32 (n : ℚ) = n := by
  unfold castToS32
  rw [Rat.num_intCast, Rat.den_intCast]
  simpa using Int.sign_mul_natAbs n

/-- With unit volume and submix gain, one mixer step is plain saturated
addition. -/
theorem mixSample_unit (b s : Int) : mixSample b s 1 1 = ClampToS16 (b + s) := by
  unfold mixSample
  rw [mul_one, mul_one, castToS32_intCast]

/-- Queueing a sequence of buffers on a stopped stream: every call succeeds
and the buffers are appended in order, as long as the 32-buffer cap is not
reached. -/
theorem queueSeq_stopped_spec (bs : List Buffer) :
    ∀ s : StreamState, s.state = StreamPhase.Stopped →
    s.queued_buffers.length + bs.length ≤ MaxAudioBufferCount →
    (queueSeq s bs).1 = List.replicate bs.length true ∧
    (queueSeq s bs).2 = { s with queued_buffers := s.queued_buffers ++ bs } := by
  induction bs with
  | nil =>
      intro s _ _
      simp [queueSeq]
  | cons b rest ih =>
      intro s h1 h2
      have hlt : s.queued_buffers.length < MaxAudioBufferCount := by
        simp only [List.length_cons] at h2
        omega
      have hstate : ({ s with queued_buffers := s.queued_buffers ++ [b] } : StreamState).state =
          StreamPhase.Stopped := h1
      have hnotplay :
          ({ s with queued_buffers := s.queued_buffers ++ [b] } : StreamState).IsPlaying = false := by
        simp [StreamState.IsPlaying, h1]
      have hqb : s.QueueBuffer b =
          (true, { s with queued_buffers := s.queued_buffers ++ [b] }) := by
        unfold StreamState.QueueBuffer
        rw [if_pos hlt]
        unfold StreamState.PlayNextBuffer
        rw [if_pos hnotplay]
      have ihs := ih { s with queued_buffers := s.queued_buffers ++ [b] } hstate
        (by
          simp only [List.length_append, List.length_cons, List.length_nil] at h2 ⊢
          omega)
      simp only [queueSeq, hqb]
      refine ⟨?_, ?_⟩
      · rw [ihs.1]
        simp [List.replicate_succ]
      · rw [ihs.2]
        simp [List.append_assoc]

/-- The info block is untouched by UpdateState. -/
theorem updateState_info (v : VoiceState) : (v.UpdateState).info = v.info := by
  simp only [VoiceState.UpdateState]
  split <;> rfl

/-- RefreshBuffer leaves the wave index unchanged. -/
theorem refreshBuffer_wave_index (env : DecodeEnv) (v : VoiceState) :
    (v.RefreshBuffer env).wave_index = v.wave_index := rfl

/-- dequeueFinish always resets the offset to 0. -/
theorem dequeueFinish_offset (v : VoiceState) (wb : WaveBuffer) :
    (v.dequeueFinish wb).offset = 0 := by
  unfold VoiceState.dequeueFinish VoiceState.SetWaveIndex
  by_cases hL : wb.is_looping = false <;>
    by_cases hB : wb.buffer_sz = 0 <;>
      by_cases hD : wb.end_of_stream = true <;>
        simp [hL, hB, hD]

/-- dequeueFinish on a consumed non-looping nonempty buffer advances the
wave index by one modulo 4 and marks a refresh pending. -/
theorem dequeueFinish_advance (v : VoiceState) (wb : WaveBuffer)
    (h1 : wb.is_looping = false) (h2 : wb.buffer_sz ≠ 0) :
    (v.dequeueFinish wb).wave_index = (v.wave_index + 1) % 4 ∧
    (v.dequeueFinish wb).is_refresh_pending = true := by
  unfold VoiceState.dequeueFinish VoiceState.SetWaveIndex
  by_cases hD : wb.end_of_stream = true <;>
    simp [h1, h2, hD, land_three_eq_mod]

/-- dequeueFinish on a nonempty buffer bumps the consumed counter (u32). -/
theorem dequeueFinish_consumed (v : VoiceState) (wb : WaveBuffer)
    (h2 : wb.buffer_sz ≠ 0) :
    (v.dequeueFinish wb).out_status.wave_buffer_consumed =
      (v.out_status.wave_buffer_consumed + 1) % 2 ^ 32 := by
  unfold VoiceState.dequeueFinish VoiceState.SetWaveIndex
  by_cases hL : wb.is_looping = false <;>
    by_cases hD : wb.end_of_stream = true <;>
      simp [hL, h2, hD]

/-- dequeueFinish pauses the voice on end-of-stream or an empty buffer. -/
theorem dequeueFinish_paused (v : VoiceState) (wb : WaveBuffer)
    (h : wb.end_of_stream = true ∨ wb.buffer_sz = 0) :
    (v.dequeueFinish wb).info.play_state = PlayState.Paused := by
  unfold VoiceState.dequeueFinish VoiceState.SetWaveIndex
  by_cases hL : wb.is_looping = false <;>
    by_cases hB : wb.buffer_sz = 0 <;>
      by_cases hD : wb.end_of_stream = true <;>
        simp_all

/-- dequeueFinish keeps the wave index below 4. -/
theorem dequeueFinish_wave_index_lt (v : VoiceState) (wb : WaveBuffer)
    (h : v.wave_index < 4) : (v.dequeueFinish wb).wave_index < 4 := by
  unfold VoiceState.dequeueFinish VoiceState.SetWaveIndex
  by_cases hL : wb.is_looping = false <;>
    by_cases hB : wb.buffer_sz = 0 <;>
      by_cases hD : wb.end_of_stream = true <;>
        simp [hL, hB, hD, land_three_eq_mod] <;>
          omega

/-- DequeueSamples on a playing voice with a current cache (no refresh
pending) in closed form: the returned slice is the cache from the current
offset, and the state either just advances or additionally runs the
end-of-cache transitions when the cache is exhausted. -/
theorem dequeueSamples_eq_of_current (env : DecodeEnv) (v : VoiceState) (n : Nat)
    (hplay : v.IsPlaying = true) (hpend : v.is_refresh_pending = false) :
    VoiceState.DequeueSamples env v n =
      ((v.samples.drop v.offset).take (v.dequeueSize n),
        if v.offset + v.dequeueSize n = v.samples.length then
          (v.dequeueAdvance (v.dequeueSize n)).dequeueFinish v.currentWaveBuffer
        else v.dequeueAdvance (v.dequeueSize n)) := by
  unfold VoiceState.DequeueSamples
  rw [if_neg (by simp [hplay])]
  simp only [hpend, Bool.false_eq_true, if_false, VoiceState.dequeueSize]
  rfl

/-! ## Claim theorems -/

/-- C3: for every memory-pool slot in an update, the returned entry state
is Attached when the guest-supplied pool state is RequestAttach, Detached
when it is RequestDetach, and for every other guest-supplied state the
entry is left unchanged; the response entries are freshly value-initialized
each update, so an untouched entry reads Invalid. -/
theorem c3_memory_pool_transitions :
    (∀ e, updateMemoryPoolEntry MemoryPoolStates.RequestAttach e = MemoryPoolStates.Attached) ∧
    (∀ e, updateMemoryPoolEntry MemoryPoolStates.RequestDetach e = MemoryPoolStates.Detached) ∧
    (∀ req e, req ≠ MemoryPoolStates.RequestAttach → req ≠ MemoryPoolStates.RequestDetach →
      updateMemoryPoolEntry req e = e) ∧
    freshMemoryPoolEntryState = MemoryPoolStates.Invalid ∧
    (∀ infos, updateMemoryPool infos =
      infos.map fun req => updateMemoryPoolEntry req freshMemoryPoolEntryState) := by
  refine ⟨fun e => rfl, fun e => rfl, ?_, rfl, fun infos => rfl⟩
  intro req e h1 h2
  simp [updateMemoryPoolEntry, h1, h2]

/-- Witness for C3 at a concrete non-request state: a guest-supplied
Attached leaves the fresh Invalid entry untouched. -/
theorem c3_memory_pool_transitions_witness :
    updateMemoryPoolEntry MemoryPoolStates.Attached freshMemoryPoolEntryState =
      freshMemoryPoolEntryState :=
  c3_memory_pool_transitions.2.2.1 MemoryPoolStates.Attached freshMemoryPoolEntryState
    (by decide) (by decide)

/-- C5: GetTagsAndReleaseBuffers returns at most max_count tags, in FIFO
order of release (a prefix of the released queue's tags), removes exactly
the drained buffers, and repeated draining yields every previously released
tag exactly once and then an empty result. -/
theorem c5_get_tags_fifo (s : StreamState) (n m : Nat) :
    ((s.GetTagsAndReleaseBuffers n).1).length ≤ n ∧
    (s.GetTagsAndReleaseBuffers n).1 = (s.released_buffers.map Buffer.tag).take n ∧
    ((s.GetTagsAndReleaseBuffers n).2).released_buffers = s.released_buffers.drop n ∧
    (s.GetTagsAndReleaseBuffers n).1 ++
        (((s.GetTagsAndReleaseBuffers n).2).GetTagsAndReleaseBuffers m).1 =
      (s.released_buffers.map Buffer.tag).take (n + m) ∧
    (s.released_buffers.length ≤ n →
      (s.GetTagsAndReleaseBuffers n).1 = s.released_buffers.map Buffer.tag ∧
      (((s.GetTagsAndReleaseBuffers n).2).GetTagsAndReleaseBuffers m).1 = []) := by
  unfold StreamState.GetTagsAndReleaseBuffers
  dsimp only
  refine ⟨?_, ?_, rfl, ?_, ?_⟩
  · simp only [List.length_map, List.length_take]
    omega
  · exact List.map_take Buffer.tag s.released_buffers n
  · rw [← List.map_append, ← List.take_add]
    exact List.map_take _ _ _
  · intro h
    constructor
    · rw [List.take_of_length_le h]
    · rw [List.drop_eq_nil_of_le h]
      simp

/-- Witness for C5: draining an empty released queue yields everything
(trivially) and then an empty result. -/
theorem c5_get_tags_fifo_witness :
    (initialStream.GetTagsAndReleaseBuffers 2).1 =
      initialStream.released_buffers.map Buffer.tag ∧
    (((initialStream.GetTagsAndReleaseBuffers 2).2).GetTagsAndReleaseBuffers 3).1 = [] :=
  (c5_get_tags_fifo initialStream 2 3).2.2.2.2 (by decide)

/-- C4: starting from an empty (freshly opened, stopped) stream with no
releases, QueueBuffer returns success and appends the buffer for each of
the first 32 buffers queued, and fails on the 33rd; on failure the stream
state is unchanged and the rejected buffer is not taken over. -/
theorem c4_queue_buffer_limit (bs : List Buffer) (b : Buffer)
    (h : bs.length = MaxAudioBufferCount) :
    (queueSeq initialStream bs).1 = List.replicate MaxAudioBufferCount true ∧
    ((queueSeq initialStream bs).2).queued_buffers = bs ∧
    (((queueSeq initialStream bs).2).QueueBuffer b).1 = false ∧
    (((queueSeq initialStream bs).2).QueueBuffer b).2 = (queueSeq initialStream bs).2 := by
  have hs := queueSeq_stopped_spec bs initialStream rfl (by simp [initialStream, h])
  have hq : ((queueSeq initialStream bs).2).queued_buffers = bs := by
    rw [hs.2]
    simp [initialStream]
  have hlen : ¬ ((queueSeq initialStream bs).2).queued_buffers.length < MaxAudioBufferCount := by
    rw [hq, h]
    omega
  refine ⟨by rw [hs.1, h], hq, ?_, ?_⟩
  · unfold StreamState.QueueBuffer
    rw [if_neg hlen]
  · unfold StreamState.QueueBuffer
    rw [if_neg hlen]

/-- Witness for C4 with 32 concrete buffers: all 32 queue calls succeed and
the 33rd fails leaving the state unchanged. -/
theorem c4_queue_buffer_limit_witness :
    (queueSeq initialStream (List.replicate 32 exampleBuffer)).1 =
      List.replicate MaxAudioBufferCount true ∧
    ((queueSeq initialStream (List.replicate 32 exampleBuffer)).2).queued_buffers =
      List.replicate 32 exampleBuffer ∧
    (((queueSeq initialStream (List.replicate 32 exampleBuffer)).2).QueueBuffer
        exampleBuffer).1 = false ∧
    (((queueSeq initialStream (List.replicate 32 exampleBuffer)).2).QueueBuffer
        exampleBuffer).2 = (queueSeq initialStream (List.replicate 32 exampleBuffer)).2 :=
  c4_queue_buffer_limit (List.replicate 32 exampleBuffer) exampleBuffer (by decide)

/-- C1 counterexample: at input revision REV5 (version exactly the
threshold 5) the returned blob keeps the unadjusted size while the header
total_size written into it is bumped by 0x10, so the blob length does not
equal the adjusted total_size — the blob is allocated before the revision
adjustment. -/
theorem c1_output_size_counterexample :
    5 ≤ versionFromRevision rev5Magic ∧
    (updateAudioRendererResponse exampleParams rev5Magic).1 ≠
      (updateAudioRendererResponse exampleParams rev5Magic).2.total_size ∧
    (updateAudioRendererResponse exampleParams rev5Magic).2.total_size =
      (updateAudioRendererResponse exampleParams rev5Magic).1 + 0x10 := by
  decide

/-- C1 amended: the returned blob length always equals the total_size
computed from the construction parameters before any revision adjustment;
for input revisions below the threshold the header echoes that size, while
for revisions at or above the threshold the header's total_size is bumped
by 0x10 (and frame_count set to 0x10), exceeding the blob length. -/
theorem c1_output_size_amended (p : AudioRendererParameter) (rev : Nat) :
    (updateAudioRendererResponse p rev).1 = (UpdateDataHeader.fromConfig p).total_size ∧
    (versionFromRevision rev < 5 →
      (updateAudioRendererResponse p rev).2.total_size =
        (updateAudioRendererResponse p rev).1 ∧
      (updateAudioRendererResponse p rev).2.frame_count = 0) ∧
    (5 ≤ versionFromRevision rev →
      (updateAudioRendererResponse p rev).2.total_size =
        u32 ((updateAudioRendererResponse p rev).1 + 0x10) ∧
      (updateAudioRendererResponse p rev).2.frame_count = 0x10) := by
  unfold updateAudioRendererResponse
  dsimp only
  refine ⟨rfl, ?_, ?_⟩
  · intro h
    rw [if_neg (by omega)]
    exact ⟨rfl, rfl⟩
  · intro h
    rw [if_pos h]
    exact ⟨rfl, rfl⟩

/-- Witness for C1 amended at revision REV4 (version 4, below threshold):
the blob length equals both the configured total_size and the header
total_size. -/
theorem c1_output_size_amended_witness :
    (updateAudioRendererResponse exampleParams rev4Magic).1 =
      (UpdateDataHeader.fromConfig exampleParams).total_size ∧
    (updateAudioRendererResponse exampleParams rev4Magic).2.total_size =
      (updateAudioRendererResponse exampleParams rev4Magic).1 :=
  ⟨(c1_output_size_amended exampleParams rev4Magic).1,
    ((c1_output_size_amended exampleParams rev4Magic).2.1 (by decide)).1⟩

/-- C6: every accumulation step of the mixer saturates to the signed
16-bit range [-32768, 32767]; sequentially mixing two voices that each
contribute +20000 with unit gain and volume into the same frame slot
yields exactly 32767; and the whole frame buffer stays within the s16
range under the per-slice mixing loop whenever it starts within range. -/
theorem c6_mix_saturation :
    (∀ (b s : Int) (vol g : ℚ),
      -32768 ≤ mixSample b s vol g ∧ mixSample b s vol g ≤ 32767) ∧
    List.foldl (fun b s => mixSample b s 1 1) 0 [20000, 20000] = 32767 ∧
    (∀ (vol m0 m1 : ℚ) (buffer : List Int) (offset : Nat) (samples : List Int),
      (∀ x ∈ buffer, -32768 ≤ x ∧ x ≤ 32767) →
      ∀ x ∈ mixIntoBuffer vol m0 m1 buffer offset samples, -32768 ≤ x ∧ x ≤ 32767) := by
  have hcl1 : ClampToS16 (0 + 20000) = 20000 := by
    unfold ClampToS16
    norm_num [max_def, min_def]
  have hcl2 : ClampToS16 (20000 + 20000) = 32767 := by
    unfold ClampToS16
    norm_num [max_def, min_def]
  refine ⟨mixSample_bounds, ?_, ?_⟩
  · simp only [List.foldl_cons, List.foldl_nil, mixSample_unit, hcl1, hcl2]
  intro vol m0 m1 buffer offset samples
  induction samples generalizing buffer offset with
  | nil =>
      intro h x hx
      simp only [mixIntoBuffer] at hx
      exact h x hx
  | cons s rest ih =>
      intro h x hx
      simp only [mixIntoBuffer] at hx
      refine ih _ _ ?_ x hx
      intro y hy
      rcases List.mem_or_eq_of_mem_set hy with hmem | hset
      · exact h y hmem
      · rw [hset]
        exact mixSample_bounds _ _ _ _

/-- Witness for C6: a concrete in-range frame buffer stays in range after
mixing a +20000 sample into it. -/
theorem c6_mix_saturation_witness :
    -32768 ≤ (20000 : Int) ∧ (20000 : Int) ≤ 32767 := by
  have hbuf : mixIntoBuffer 1 1 1 [0, 0] 0 [20000] = [20000, 0] := by
    have hcl : ClampToS16 20000 = 20000 := by
      unfold ClampToS16
      norm_num [max_def, min_def]
    simp [mixIntoBuffer, mixSample_unit, hcl]
  have hmem : (20000 : Int) ∈ mixIntoBuffer 1 1 1 [0, 0] 0 [20000] := by
    rw [hbuf]
    exact List.mem_cons_self _ _
  exact c6_mix_saturation.2.2 1 1 1 [0, 0] 0 [20000] (by norm_num) 20000 hmem

/-- C10: one call to ReleaseAndQueueBuffers drains exactly the first
min(2, released) tags from the released queue — never more than 2 — and
mixes and queues exactly one replacement frame per drained tag, regardless
of how many buffers were released since the last update. -/
theorem c10_release_drains_at_most_two (env : DecodeEnv) (rs : RendererState) :
    RendererState.ReleaseAndQueueBuffers env rs =
      RendererState.mixAndQueueTags env
        { rs with stream := { rs.stream with
            released_buffers := rs.stream.released_buffers.drop 2 } }
        ((rs.stream.released_buffers.map Buffer.tag).take 2) ∧
    ((rs.stream.released_buffers.map Buffer.tag).take 2).length ≤ 2 := by
  constructor
  · unfold RendererState.ReleaseAndQueueBuffers StreamState.GetTagsAndReleaseBuffers
    rw [List.map_take]
  · simp only [List.length_take, List.length_map]
    omega

/-- C2: for a playing voice with a current cache, when DequeueSamples
reaches the end of the cached decoded buffer the playback offset resets to
0; if the current wave buffer is not looping and has nonzero size the wave
index advances to (index+1) mod 4 and a refresh is marked pending; if the
buffer has nonzero size the consumed-buffer counter increments by exactly
one (u32); and if the buffer is end-of-stream or has zero size the play
state transitions to Paused — while none of these happen on a dequeue that
does not exhaust the cache. -/
theorem c2_dequeue_end_transitions (env : DecodeEnv) (v : VoiceState) (n : Nat)
    (hplay : v.IsPlaying = true) (hpend : v.is_refresh_pending = false)
    (hoff : v.offset ≤ v.samples.length) :
    (v.offset + v.dequeueSize n = v.samples.length →
      ((VoiceState.DequeueSamples env v n).2).offset = 0 ∧
      (v.currentWaveBuffer.is_looping = false → v.currentWaveBuffer.buffer_sz ≠ 0 →
        ((VoiceState.DequeueSamples env v n).2).wave_index = (v.wave_index + 1) % 4 ∧
        ((VoiceState.DequeueSamples env v n).2).is_refresh_pending = true) ∧
      (v.currentWaveBuffer.buffer_sz ≠ 0 →
        ((VoiceState.DequeueSamples env v n).2).out_status.wave_buffer_consumed =
          (v.out_status.wave_buffer_consumed + 1) % 2 ^ 32) ∧
      (v.currentWaveBuffer.end_of_stream = true ∨ v.currentWaveBuffer.buffer_sz = 0 →
        ((VoiceState.DequeueSamples env v n).2).info.play_state = PlayState.Paused)) ∧
    (v.offset + v.dequeueSize n ≠ v.samples.length →
      ((VoiceState.DequeueSamples env v n).2).offset = v.offset + v.dequeueSize n ∧
      ((VoiceState.DequeueSamples env v n).2).wave_index = v.wave_index ∧
      ((VoiceState.DequeueSamples env v n).2).out_status.wave_buffer_consumed =
        v.out_status.wave_buffer_consumed ∧
      ((VoiceState.DequeueSamples env v n).2).info.play_state = v.info.play_state ∧
      ((VoiceState.DequeueSamples env v n).2).is_refresh_pending = false) := by
  rw [dequeueSamples_eq_of_current env v n hplay hpend]
  dsimp only
  constructor
  · intro hend
    rw [if_pos hend]
    refine ⟨dequeueFinish_offset _ _, ?_, ?_, ?_⟩
    · intro h1 h2
      exact dequeueFinish_advance (v.dequeueAdvance (v.dequeueSize n)) v.currentWaveBuffer h1 h2
    · intro h2
      exact dequeueFinish_consumed (v.dequeueAdvance (v.dequeueSize n)) v.currentWaveBuffer h2
    · intro h
      exact dequeueFinish_paused (v.dequeueAdvance (v.dequeueSize n)) v.currentWaveBuffer h
  · intro hne
    rw [if_neg hne]
    exact ⟨rfl, rfl, rfl, rfl, hpend⟩

/-- Witness for C2: a playing voice with a fully consumed two-sample cache
and a non-looping nonzero wave buffer resets its offset, advances the wave
index, marks a refresh pending and bumps the consumed counter. -/
theorem c2_dequeue_end_transitions_witness :
    ((VoiceState.DequeueSamples exampleEnv exampleVoicePlaying 1).2).offset = 0 ∧
    ((VoiceState.DequeueSamples exampleEnv exampleVoicePlaying 1).2).wave_index =
      (exampleVoicePlaying.wave_index + 1) % 4 ∧
    ((VoiceState.DequeueSamples exampleEnv exampleVoicePlaying 1).2).is_refresh_pending = true ∧
    ((VoiceState.DequeueSamples exampleEnv exampleVoicePlaying 1).2).out_status.wave_buffer_consumed =
      (exampleVoicePlaying.out_status.wave_buffer_consumed + 1) % 2 ^ 32 := by
  have h := c2_dequeue_end_transitions exampleEnv exampleVoicePlaying 1
    (by decide) (by decide) (by decide)
  have he := h.1 (by decide)
  exact ⟨he.1, (he.2.1 (by decide) (by decide)).1, (he.2.1 (by decide) (by decide)).2,
    he.2.2.1 (by decide)⟩

/-- C7 counterexample: a voice whose in-use flag transitions from false to
true without the new flag does not get its wave index reset to the
declared head index — the reset is keyed on the new flag, not on the
in-use transition. -/
theorem c7_wave_index_reset_counterexample :
    exampleVoiceBecomingInUse.is_in_use = false ∧
    exampleVoiceBecomingInUse.info.is_in_use = true ∧
    (updateVoice exampleVoiceBecomingInUse).is_in_use = true ∧
    exampleVoiceBecomingInUse.info.wave_buffer_head = 2 ∧
    (updateVoice exampleVoiceBecomingInUse).wave_index =
      exampleVoiceBecomingInUse.wave_index ∧
    (updateVoice exampleVoiceBecomingInUse).wave_index ≠
      exampleVoiceBecomingInUse.info.wave_buffer_head := by
  decide

/-- C7 amended: the wave-index reset to the guest-declared head (masked
with 3) happens exactly when the freshly parsed voice is in-use and flagged
new; an in-use voice without the new flag — including one whose in-use flag
just transitioned from false to true — keeps the wave index produced by
UpdateState, and an out-of-use voice is left exactly as UpdateState leaves
it. -/
theorem c7_wave_index_reset_amended (v : VoiceState) :
    (v.info.is_in_use = true → v.info.is_new = true →
      (updateVoice v).wave_index = v.info.wave_buffer_head % 4 ∧
      (updateVoice v).is_refresh_pending = true) ∧
    (v.info.is_in_use = true → v.info.is_new = false →
      (updateVoice v).wave_index = (v.UpdateState).wave_index ∧
      (updateVoice v).is_refresh_pending = (v.UpdateState).is_refresh_pending) ∧
    (v.info.is_in_use = false → updateVoice v = v.UpdateState) := by
  have hinfo := updateState_info v
  unfold updateVoice
  dsimp only
  refine ⟨?_, ?_, ?_⟩
  · intro h1 h2
    have hc1 : ¬ ((v.UpdateState).info.is_in_use = false) := by
      rw [hinfo, h1]
      simp
    rw [if_neg hc1]
    have hc2 : (v.UpdateState).info.is_new = true := by
      rw [hinfo]
      exact h2
    rw [if_pos hc2]
    unfold VoiceState.SetWaveIndex
    constructor
    · show (v.UpdateState).info.wave_buffer_head &&& 3 = v.info.wave_buffer_head % 4
      rw [hinfo, land_three_eq_mod]
    · rfl
  · intro h1 h2
    have hc1 : ¬ ((v.UpdateState).info.is_in_use = false) := by
      rw [hinfo, h1]
      simp
    rw [if_neg hc1]
    have hc2 : ¬ ((v.UpdateState).info.is_new = true) := by
      rw [hinfo, h2]
      simp
    rw [if_neg hc2]
    exact ⟨rfl, rfl⟩
  · intro h1
    rw [if_pos (by rw [hinfo]; exact h1)]

/-- Witness for C7 amended: an in-use voice flagged new with head index 3
gets its wave index set to 3 and a refresh marked pending. -/
theorem c7_wave_index_reset_amended_witness :
    (updateVoice exampleVoiceNew).wave_index = exampleVoiceNew.info.wave_buffer_head % 4 ∧
    (updateVoice exampleVoiceNew).is_refresh_pending = true :=
  (c7_wave_index_reset_amended exampleVoiceNew).1 (by decide) (by decide)

/-- C8: UpdateState resets the decode cursor, wave index and output status
to defaults and marks a refresh pending exactly when the voice was
previously in-use and the freshly parsed is_in_use is false; in every other
case the cursor, wave index, output-status counters and pending flag are
preserved; and the internal in-use flag is always synchronized to the
parsed value. -/
theorem c8_update_state_reset (v : VoiceState) :
    (v.is_in_use = true ∧ v.info.is_in_use = false →
      (v.UpdateState).offset = 0 ∧ (v.UpdateState).wave_index = 0 ∧
      (v.UpdateState).out_status = ⟨0, 0, 0⟩ ∧
      (v.UpdateState).is_refresh_pending = true) ∧
    (¬(v.is_in_use = true ∧ v.info.is_in_use = false) →
      (v.UpdateState).offset = v.offset ∧ (v.UpdateState).wave_index = v.wave_index ∧
      (v.UpdateState).out_status = v.out_status ∧
      (v.UpdateState).is_refresh_pending = v.is_refresh_pending) ∧
    (v.UpdateState).is_in_use = v.info.is_in_use := by
  unfold VoiceState.UpdateState
  dsimp only
  refine ⟨?_, ?_, ?_⟩
  · intro h
    rw [if_pos h]
    exact ⟨rfl, rfl, rfl, rfl⟩
  · intro h
    rw [if_neg h]
    exact ⟨rfl, rfl, rfl, rfl⟩
  · by_cases h : v.is_in_use = true ∧ v.info.is_in_use = false
    · rw [if_pos h]
    · rw [if_neg h]

/-- Witness for C8: a deactivating voice with nonzero cursors and counters
is fully reset and its in-use flag synchronized. -/
theorem c8_update_state_reset_witness :
    (exampleVoiceDeactivating.UpdateState).offset = 0 ∧
    (exampleVoiceDeactivating.UpdateState).wave_index = 0 ∧
    (exampleVoiceDeactivating.UpdateState).out_status = ⟨0, 0, 0⟩ ∧
    (exampleVoiceDeactivating.UpdateState).is_refresh_pending = true ∧
    (exampleVoiceDeactivating.UpdateState).is_in_use =
      exampleVoiceDeactivating.info.is_in_use := by
  have h := c8_update_state_reset exampleVoiceDeactivating
  have hr := h.1 (by decide)
  exact ⟨hr.1, hr.2.1, hr.2.2.1, hr.2.2.2, h.2.2⟩

/-- C9: the wave index always stays in [0, 3]: SetWaveIndex masks every
supplied index with 3 (storing it modulo 4), DequeueSamples preserves the
bound (its advancement goes through the same mask), UpdateState preserves
it and resets it to 0 on deactivation — so indexing the 4-slot wave-buffer
ring never goes out of bounds. -/
theorem c9_wave_index_invariant :
    (∀ (v : VoiceState) (i : Nat), (v.SetWaveIndex i).wave_index = i % 4) ∧
    (∀ (v : VoiceState) (i : Nat), (v.SetWaveIndex i).wave_index < 4) ∧
    (∀ (env : DecodeEnv) (v : VoiceState) (n : Nat), v.wave_index < 4 →
      ((VoiceState.DequeueSamples env v n).2).wave_index < 4) ∧
    (∀ v : VoiceState, v.wave_index < 4 → (v.UpdateState).wave_index < 4) ∧
    (∀ v : VoiceState, v.is_in_use = true → v.info.is_in_use = false →
      (v.UpdateState).wave_index = 0) := by
  refine ⟨?_, ?_, ?_, ?_, ?_⟩
  · intro v i
    exact land_three_eq_mod i
  · intro v i
    have h := land_three_eq_mod i
    show i &&& 3 < 4
    rw [h]
    omega
  · intro env v n h
    unfold VoiceState.DequeueSamples
    by_cases hp : v.IsPlaying = false
    · rw [if_pos hp]
      exact h
    · rw [if_neg hp]
      dsimp only
      by_cases hr : v.is_refresh_pending = true
      · rw [if_pos hr]
        split
        · exact dequeueFinish_wave_index_lt _ _ h
        · exact h
      · rw [if_neg hr]
        split
        · exact dequeueFinish_wave_index_lt _ _ h
        · exact h
  · intro v h
    unfold VoiceState.UpdateState
    dsimp only
    by_cases hc : v.is_in_use = true ∧ v.info.is_in_use = false
    · rw [if_pos hc]
      show (0 : Nat) < 4
      omega
    · rw [if_neg hc]
      exact h
  · intro v h1 h2
    unfold VoiceState.UpdateState
    dsimp only
    rw [if_pos ⟨h1, h2⟩]

/-- Witness for C9 at concrete states: a masked out-of-range index, a
dequeue step and a deactivation all keep the wave index below 4. -/
theorem c9_wave_index_invariant_witness :
    (exampleVoicePlaying.SetWaveIndex 7).wave_index = 7 % 4 ∧
    (exampleVoicePlaying.SetWaveIndex 7).wave_index < 4 ∧
    ((VoiceState.DequeueSamples exampleEnv exampleVoicePlaying 1).2).wave_index < 4 ∧
    (exampleVoiceDeactivating.UpdateState).wave_index < 4 ∧
    (exampleVoiceDeactivating.UpdateState).wave_index = 0 :=
  ⟨c9_wave_index_invariant.1 exampleVoicePlaying 7,
    c9_wave_index_invariant.2.1 exampleVoicePlaying 7,
    c9_wave_index_invariant.2.2.1 exampleEnv exampleVoicePlaying 1 (by decide),
    c9_wave_index_invariant.2.2.2.1 exampleVoiceDeactivating (by decide),
    c9_wave_index_invariant.2.2.2.2 exampleVoiceDeactivating (by decide) (by decide)⟩

end AudioCore
